import Mathlib

/-!
Shallow embedding of the News-agent repository (a two-phase fetch-then-process
orchestrator) and proofs of the spec's testable properties against it.

Durations are modelled as rationals.  Wherever the Python code measures
wall-clock time with `time.perf_counter`, the embedding takes the measured
quantity as an explicit oracle parameter (an "overhead" added to the simulated
sleep, or the total measured duration): the measured values do not influence
any analysis content, and making them parameters lets the theorems quantify
over every possible timing outcome.
-/

/-- Python exception values observable from the orchestrator.  The
constructors `fetchError` and `processingError` model the wrapper error kinds
posited by the spec (§7); the code under `src/` defines no such wrappers, and
they are present here only so that claims about wrapping can be stated. -/
inductive PyErr where
  | runtimeError (msg : String)
  | valueError (msg : String)
  | fetchError (inner : PyErr)
  | processingError (inner : PyErr)
  | exception (msg : String)
deriving DecidableEq, Repr

/-- Python's `pat in s` substring test on strings. -/
def strContains (s pat : String) : Bool :=
  decide (pat.toList <:+: s.toList)

/-- Embedding of `AgentConfig` (src/config/models.py lines 6-28) with the
declared defaults. -/
structure AgentConfig where
  max_cpu_workers : Int := 2
  mock_fetch_delay : ℚ := 1/2
  mock_analysis_time : ℚ := 1
  api_timeout : ℚ := 30
deriving DecidableEq, Repr

/-- Embedding of `RawArticleData` (src/config/models.py lines 31-35). -/
structure RawArticleData where
  url : String
  content : String
  fetch_time : ℚ
deriving DecidableEq, Repr

/-- Embedding of `ArticleAnalysisResult` (src/config/models.py lines 37-43). -/
structure ArticleAnalysisResult where
  url : String
  summary : String
  category : String
  entities : List String
  analysis_time : ℚ
deriving DecidableEq, Repr

/-- Embedding of `NewsAgentReport` (src/config/models.py lines 45-49) with the
declared defaults. -/
structure NewsAgentReport where
  results : List ArticleAnalysisResult := []
  total_articles_processed : Int := 0
  total_time_taken : ℚ := 0
deriving DecidableEq, Repr

/-- Values that the agent passes as keyword arguments when constructing a
`NewsAgentReport`. -/
inductive PyVal where
  | vList (rs : List ArticleAnalysisResult)
  | vInt (n : Int)
  | vNum (q : ℚ)
deriving DecidableEq, Repr

/-- Pydantic construction of `NewsAgentReport` from keyword arguments:
each declared field is read by name (falling back to the model's default when
absent or of the wrong shape), and unknown keyword arguments are ignored
(pydantic v2's default `extra` behaviour for `BaseModel`). -/
def NewsAgentReport.validate (kwargs : List (String × PyVal)) : NewsAgentReport :=
  { results :=
      match kwargs.lookup "results" with
      | some (PyVal.vList rs) => rs
      | _ => [],
    total_articles_processed :=
      match kwargs.lookup "total_articles_processed" with
      | some (PyVal.vInt n) => n
      | _ => 0,
    total_time_taken :=
      match kwargs.lookup "total_time_taken" with
      | some (PyVal.vNum q) => q
      | _ => 0 }

/-- Embedding of `async_mock_fetch_article_content`
(src/tools/mock_news_api.py lines 7-33).  `fetchOverhead` is the oracle for
the measured wall-clock excess of `end_time - start_time` over the simulated
`asyncio.sleep mock_fetch_delay`. -/
def async_mock_fetch_article_content (url : String) (mock_fetch_delay : ℚ)
    (fetchOverhead : ℚ) : RawArticleData :=
  { url := url,
    content :=
      "This is the mock content for the article at " ++ url ++ ". " ++
      "It discusses a breakthrough in AI engineering, using asyncio and hybrid workloads. " ++
      "Key entities include Gemini, Pydantic, and ProcessPoolExecutor. " ++
      "The article also touches on multi-agent systems and real-world applications.",
    fetch_time := mock_fetch_delay + fetchOverhead }

/-- Embedding of `cpu_mock_analyze_article_text`
(src/tools/mock_news_api.py lines 35-63).  `analysisOverhead` is the oracle
for the measured wall-clock excess over the simulated
`time.sleep mock_analysis_time`. -/
def cpu_mock_analyze_article_text (raw_article_data : RawArticleData)
    (mock_analysis_time : ℚ) (analysisOverhead : ℚ) : ArticleAnalysisResult :=
  { url := raw_article_data.url,
    summary := "Summary of " ++ raw_article_data.url ++
      ": AI engineering concepts applied to multi-agent systems.",
    category :=
      if strContains raw_article_data.content "AI engineering" then "Technology"
      else "General",
    entities := ["Gemini", "Pydantic", "ProcessPoolExecutor", "asyncio"],
    analysis_time := mock_analysis_time + analysisOverhead }

/-- Embedding of `SummarizeCategorizeStrategy.process_article`
(src/agent/strategies.py lines 32-44): runs `cpu_mock_analyze_article_text`
on the pool with the configured `mock_analysis_time` and awaits the result. -/
def SummarizeCategorizeStrategy.process_article (agent_config : AgentConfig)
    (raw_article_data : RawArticleData) (analysisOverhead : ℚ) :
    ArticleAnalysisResult :=
  cpu_mock_analyze_article_text raw_article_data agent_config.mock_analysis_time
    analysisOverhead

/-- `asyncio.gather` over already-determined task results: the gathered list
is returned in task-submission order, independent of completion order. -/
def gather {α : Type} (tasks : List α) : List α := tasks

/-- Embedding of `NewsArticleAgent.research` (src/agent/news_agent.py lines
36-75) on the success path: fan out all fetches, gather them in input order,
fan out all processing calls, gather them in input order, and build the report
via pydantic keyword-argument construction — including the extra
`total_duration` keyword passed by the source.  `total_duration` is the
oracle for the measured `end_time - start_time`; the per-item overhead
oracles model per-item latency variance. -/
def NewsArticleAgent.research (urls : List String) (agent_config : AgentConfig)
    (fetchOverhead : String → ℚ) (analysisOverhead : String → ℚ)
    (total_duration : ℚ) : NewsAgentReport :=
  let all_raw_articles :=
    gather (urls.map fun url =>
      async_mock_fetch_article_content url agent_config.mock_fetch_delay
        (fetchOverhead url))
  let all_analysis_results :=
    gather (all_raw_articles.map fun raw_article =>
      SummarizeCategorizeStrategy.process_article agent_config raw_article
        (analysisOverhead raw_article.url))
  NewsAgentReport.validate
    [("results", PyVal.vList all_analysis_results),
     ("total_articles_processed", PyVal.vInt (urls.length : Int)),
     ("total_time_taken", PyVal.vNum total_duration),
     ("total_duration", PyVal.vNum total_duration)]

/-- `asyncio.gather` over fallible tasks (`return_exceptions` left at its
default `False`): the first failing task's exception propagates and every
sibling result is discarded; when no task fails the results are returned in
submission order. -/
def gatherE {ε α : Type} (tasks : List (Except ε α)) : Except ε (List α) :=
  match tasks with
  | [] => Except.ok []
  | Except.error e :: _ => Except.error e
  | Except.ok a :: ts =>
    match gatherE ts with
    | Except.error e => Except.error e
    | Except.ok as => Except.ok (a :: as)

/-- Embedding of `NewsArticleAgent.research` with fallible collaborators:
the fetch phase and the processing phase are each a `gatherE` fan-out, with
no exception handling in the coordinator itself (the source wraps neither
phase in `try`). -/
def NewsArticleAgent.researchE (urls : List String)
    (fetch : String → Except PyErr RawArticleData)
    (process : RawArticleData → Except PyErr ArticleAnalysisResult)
    (total_duration : ℚ) : Except PyErr NewsAgentReport :=
  match gatherE (urls.map fetch) with
  | Except.error e => Except.error e
  | Except.ok all_raw_articles =>
    match gatherE (all_raw_articles.map process) with
    | Except.error e => Except.error e
    | Except.ok all_analysis_results =>
      Except.ok (NewsAgentReport.validate
        [("results", PyVal.vList all_analysis_results),
         ("total_articles_processed", PyVal.vInt (urls.length : Int)),
         ("total_time_taken", PyVal.vNum total_duration),
         ("total_duration", PyVal.vNum total_duration)])

/-- Modelled from the spec: the Python-stdlib `ProcessPoolExecutor`
constructor used by `ExecutorManager.__aenter__` is not part of `src/`; per
the spec's pool contract it rejects a non-positive worker count and otherwise
allocates a pool of exactly `max_workers` workers.  The handle records the
allocated worker count. -/
structure PoolHandle where
  max_workers : Int
deriving DecidableEq, Repr

/-- Modelled from the spec: allocation of the underlying OS pool resource
(`ProcessPoolExecutor(max_workers=...)`), failing on a non-positive count. -/
def processPoolExecutorInit (max_workers : Int) : Except PyErr PoolHandle :=
  if max_workers ≤ 0 then
    Except.error (PyErr.valueError "max_workers must be greater than 0")
  else Except.ok { max_workers := max_workers }

/-- Embedding of `ExecutorManager` state (src/utils/executor_manager.py lines
5-32): the configured worker count and the optional live executor. -/
structure ExecutorManager where
  max_workers_field : Int
  executor_field : Option PoolHandle
deriving DecidableEq, Repr

/-- Embedding of `ExecutorManager.__init__`: stores the worker count with no
executor allocated yet. -/
def ExecutorManager.init (max_workers : Int) : ExecutorManager :=
  { max_workers_field := max_workers, executor_field := none }

/-- Embedding of `ExecutorManager.__aenter__`: allocates the
`ProcessPoolExecutor` and stores it on the manager. -/
def ExecutorManager.aenter (m : ExecutorManager) :
    Except PyErr ExecutorManager :=
  match processPoolExecutorInit m.max_workers_field with
  | Except.error e => Except.error e
  | Except.ok e => Except.ok { m with executor_field := some e }

/-- Embedding of `ExecutorManager.__aexit__`: if an executor is live, shut it
down (waiting for in-flight work) and clear it; otherwise do nothing.  The
body raises no exception on either path. -/
def ExecutorManager.aexit (m : ExecutorManager) : Except PyErr ExecutorManager :=
  match m.executor_field with
  | some _ => Except.ok { m with executor_field := none }
  | none => Except.ok m

/-- Embedding of the `ExecutorManager.executor` property: raises
`RuntimeError` when no executor is live (before `__aenter__` or after
`__aexit__`), which is the error every submission after close hits. -/
def ExecutorManager.executorProp (m : ExecutorManager) : Except PyErr PoolHandle :=
  match m.executor_field with
  | some e => Except.ok e
  | none =>
    Except.error (PyErr.runtimeError
      "Executor not initialized. Use ExecutorManager as an async context manager.")

/-- Ceiling division on naturals, `⌈n / w⌉`. -/
def ceilDiv (n w : Nat) : Nat := (n + w - 1) / w

/-- Idealized finish time of the i-th processing job (0-indexed) under the
code's phase structure: all `n` fetches run concurrently and complete at time
`F`; all `n` processing jobs are then submitted at once to the `w`-worker
pool, which runs them greedily in batches of `w`, each taking `P`, so job `i`
completes at `F + (i / w + 1) * P`. -/
def jobFinishTime (F P : ℚ) (w i : Nat) : ℚ := F + ((i / w : Nat) + 1) * P

/-- Idealized total duration of a `research` call on `n` items with a
`w`-worker pool: the fetch phase ends at `F`, and the call returns when the
last processing job finishes. -/
def researchTotalDurationIdeal (n w : Nat) (F P : ℚ) : ℚ :=
  ((List.range n).map (jobFinishTime F P w)).foldr max F

/-! ## Helper lemmas -/

/-- Evaluating the pydantic construction on exactly the keyword arguments the
agent passes: the three declared fields are read and the extra
`total_duration` key is dropped. -/
theorem validate_research_kwargs (rs : List ArticleAnalysisResult) (n : Int)
    (q q' : ℚ) :
    NewsAgentReport.validate
      [("results", PyVal.vList rs),
       ("total_articles_processed", PyVal.vInt n),
       ("total_time_taken", PyVal.vNum q),
       ("total_duration", PyVal.vNum q')] =
      { results := rs, total_articles_processed := n, total_time_taken := q } :=
  rfl

/-- Closed form of `research`: the report consists of the per-url pipeline
results in input order, the input length, and the measured duration. -/
theorem research_eq (urls : List String) (cfg : AgentConfig)
    (fo ao : String → ℚ) (d : ℚ) :
    NewsArticleAgent.research urls cfg fo ao d =
      { results := urls.map fun url =>
          SummarizeCategorizeStrategy.process_article cfg
            (async_mock_fetch_article_content url cfg.mock_fetch_delay (fo url))
            (ao url),
        total_articles_processed := (urls.length : Int),
        total_time_taken := d } := by
  simp only [NewsArticleAgent.research, gather, List.map_map]
  rw [validate_research_kwargs]
  rfl

theorem strContains_append_right (s t pat : String)
    (h : strContains t pat = true) : strContains (s ++ t) pat = true := by
  simp only [strContains, decide_eq_true_eq] at h ⊢
  obtain ⟨a, b, hab⟩ := h
  refine ⟨s.toList ++ a, b, ?_⟩
  have hst : (s ++ t).toList = s.toList ++ t.toList := by
    simp [String.toList, String.data_append]
  rw [hst, ← hab]
  simp [List.append_assoc]

theorem strContains_append_left (s t pat : String)
    (h : strContains s pat = true) : strContains (s ++ t) pat = true := by
  simp only [strContains, decide_eq_true_eq] at h ⊢
  obtain ⟨a, b, hab⟩ := h
  refine ⟨a, b ++ t.toList, ?_⟩
  have hst : (s ++ t).toList = s.toList ++ t.toList := by
    simp [String.toList, String.data_append]
  rw [hst, ← hab]
  simp [List.append_assoc]

/-- The deterministic mock payload always contains the categorization marker
`"AI engineering"`, whatever the url is. -/
theorem mock_content_contains_marker (url : String) (F o : ℚ) :
    strContains (async_mock_fetch_article_content url F o).content
      "AI engineering" = true := by
  show strContains
    ("This is the mock content for the article at " ++ url ++ ". " ++
     "It discusses a breakthrough in AI engineering, using asyncio and hybrid workloads. " ++
     "Key entities include Gemini, Pydantic, and ProcessPoolExecutor. " ++
     "The article also touches on multi-agent systems and real-world applications.")
    "AI engineering" = true
  apply strContains_append_left
  apply strContains_append_left
  apply strContains_append_right
  decide

/-- Any member of a list is bounded by a fold of `max` over it. -/
theorem le_foldr_max {l : List ℚ} {a : ℚ} (b : ℚ) (h : a ∈ l) :
    a ≤ l.foldr max b := by
  induction l with
  | nil => cases h
  | cons x xs ih =>
    rcases List.mem_cons.mp h with h1 | h2
    · subst h1
      exact le_max_left _ _
    · exact le_trans (ih h2) (le_max_right _ _)

theorem ceilDiv_eq (n w : Nat) (hn : 0 < n) (hw : 0 < w) :
    ceilDiv n w = (n - 1) / w + 1 := by
  unfold ceilDiv
  have h1 : n + w - 1 = (n - 1) + w := by omega
  rw [h1, Nat.add_div_right _ hw]

/-- `gatherE` propagates the first failing task's exception. -/
theorem gatherE_error_at {ε α : Type} (l : List (Except ε α)) (i : Nat) (e : ε)
    (hi : l[i]? = some (Except.error e))
    (hok : ∀ j, j < i → ∃ a, l[j]? = some (Except.ok a)) :
    gatherE l = Except.error e := by
  induction l generalizing i with
  | nil => simp at hi
  | cons t ts ih =>
    cases i with
    | zero =>
      simp at hi
      subst hi
      rfl
    | succ n =>
      obtain ⟨a, ha⟩ := hok 0 (Nat.succ_pos n)
      simp at ha
      subst ha
      have hrec : gatherE ts = Except.error e :=
        ih n (by simpa using hi)
          (fun j hj => by simpa using hok (j + 1) (by omega))
      simp [gatherE, hrec]

/-- `gatherE` over tasks that all succeed returns all results in order. -/
theorem gatherE_map_ok {ε α β : Type} (f : α → β) (l : List α) :
    gatherE (ε := ε) (l.map fun a => Except.ok (f a)) =
      Except.ok (l.map f) := by
  induction l with
  | nil => rfl
  | cons a as ih => simp [gatherE, ih]

/-- The integration-test configuration (tests/integration/
test_agent_workflow.py lines 95-103). -/
def cfgEx : AgentConfig :=
  { max_cpu_workers := 2, mock_fetch_delay := 1/10,
    mock_analysis_time := 1/5, api_timeout := 5 }

/-! ## Claim theorems -/

/-- C1: for every input url list (and every timing outcome, i.e. independent
of completion order), the report returned by `research` satisfies
`total_articles_processed = len(urls)`, `len(results) = len(urls)`, and the
results are index-aligned with the input: the list of result urls equals the
input url list. -/
theorem research_report_order_aligned (urls : List String) (cfg : AgentConfig)
    (fo ao : String → ℚ) (d : ℚ) :
    (NewsArticleAgent.research urls cfg fo ao d).total_articles_processed =
      (urls.length : Int) ∧
    (NewsArticleAgent.research urls cfg fo ao d).results.length = urls.length ∧
    (NewsArticleAgent.research urls cfg fo ao d).results.map
      ArticleAnalysisResult.url = urls := by
  rw [research_eq]
  refine ⟨rfl, by simp, ?_⟩
  simp only [List.map_map]
  exact (List.map_congr_left fun url _ => rfl).trans (List.map_id urls)

/-- C3: the provided strategy returns `summary = "Summary of " ++ url ++`
the fixed templated text, `category = "Technology"` exactly when the content
contains the marker `"AI engineering"` (and `"General"` otherwise), and a
fixed non-empty entity list that does not depend on the input. -/
theorem strategy_output_spec (cfg : AgentConfig) (raw : RawArticleData)
    (ov : ℚ) :
    (SummarizeCategorizeStrategy.process_article cfg raw ov).summary =
      "Summary of " ++ raw.url ++
        ": AI engineering concepts applied to multi-agent systems." ∧
    ((SummarizeCategorizeStrategy.process_article cfg raw ov).category =
        "Technology" ↔ strContains raw.content "AI engineering" = true) ∧
    ((SummarizeCategorizeStrategy.process_article cfg raw ov).category =
        "General" ↔ strContains raw.content "AI engineering" = false) ∧
    (SummarizeCategorizeStrategy.process_article cfg raw ov).entities =
      ["Gemini", "Pydantic", "ProcessPoolExecutor", "asyncio"] ∧
    (SummarizeCategorizeStrategy.process_article cfg raw ov).entities ≠ [] := by
  refine ⟨rfl, ?_, ?_,
    rfl, by simp [SummarizeCategorizeStrategy.process_article,
      cpu_mock_analyze_article_text]⟩ <;>
    cases h : strContains raw.content "AI engineering" <;>
      simp [SummarizeCategorizeStrategy.process_article,
        cpu_mock_analyze_article_text, h]

/-- C4: the provided strategy is pure on its analysis output: on raw items
with the same url and content (whatever their measured fetch times and
whatever the measured processing durations of the two calls), the two results
agree on url, summary, category and entities; only the measured
`analysis_time` may differ. -/
theorem strategy_pure_on_analysis (cfg : AgentConfig)
    (r1 r2 : RawArticleData) (o1 o2 : ℚ)
    (hurl : r1.url = r2.url) (hcontent : r1.content = r2.content) :
    (SummarizeCategorizeStrategy.process_article cfg r1 o1).url =
      (SummarizeCategorizeStrategy.process_article cfg r2 o2).url ∧
    (SummarizeCategorizeStrategy.process_article cfg r1 o1).summary =
      (SummarizeCategorizeStrategy.process_article cfg r2 o2).summary ∧
    (SummarizeCategorizeStrategy.process_article cfg r1 o1).category =
      (SummarizeCategorizeStrategy.process_article cfg r2 o2).category ∧
    (SummarizeCategorizeStrategy.process_article cfg r1 o1).entities =
      (SummarizeCategorizeStrategy.process_article cfg r2 o2).entities := by
  simp [SummarizeCategorizeStrategy.process_article,
    cpu_mock_analyze_article_text, hurl, hcontent]

theorem strategy_pure_on_analysis_witness :
    ({ url := "u", content := "c", fetch_time := 1 } : RawArticleData).url =
      ({ url := "u", content := "c", fetch_time := 2 } : RawArticleData).url ∧
    ({ url := "u", content := "c", fetch_time := 1 } : RawArticleData).content =
      ({ url := "u", content := "c", fetch_time := 2 } : RawArticleData).content ∧
    (SummarizeCategorizeStrategy.process_article cfgEx
        { url := "u", content := "c", fetch_time := 1 } 0).category =
      (SummarizeCategorizeStrategy.process_article cfgEx
        { url := "u", content := "c", fetch_time := 2 } (1/2)).category :=
  ⟨rfl, rfl,
    (strategy_pure_on_analysis cfgEx
      { url := "u", content := "c", fetch_time := 1 }
      { url := "u", content := "c", fetch_time := 2 } 0 (1/2) rfl rfl).2.2.1⟩

/-- C9: the mock fetch collaborator's payload always contains the fixed
marker `"AI engineering"`, whatever the url; consequently every analysis
result produced by a full `research` run has category `"Technology"` and
never `"General"`, for every input url list and every timing outcome. -/
theorem pipeline_category_always_technology (urls : List String)
    (cfg : AgentConfig) (fo ao : String → ℚ) (d : ℚ) (url : String)
    (F o : ℚ) :
    strContains (async_mock_fetch_article_content url F o).content
      "AI engineering" = true ∧
    (NewsArticleAgent.research urls cfg fo ao d).results.all
      (fun r => r.category == "Technology") = true ∧
    (NewsArticleAgent.research urls cfg fo ao d).results.any
      (fun r => r.category == "General") = false := by
  refine ⟨mock_content_contains_marker url F o, ?_, ?_⟩
  · rw [research_eq]
    simp only [List.all_eq_true]
    intro u hu
    obtain ⟨x, hx, rfl⟩ := List.mem_map.mp hu
    simp [SummarizeCategorizeStrategy.process_article,
      cpu_mock_analyze_article_text,
      mock_content_contains_marker x cfg.mock_fetch_delay (fo x)]
  · rw [research_eq]
    simp only [List.any_eq_false]
    intro u hu
    obtain ⟨x, hx, rfl⟩ := List.mem_map.mp hu
    simp [SummarizeCategorizeStrategy.process_article,
      cpu_mock_analyze_article_text,
      mock_content_contains_marker x cfg.mock_fetch_delay (fo x)]

/-- C10: `research` builds its report through pydantic keyword-argument
construction with the extra `total_duration` keyword; construction succeeds
for every input, the extra keyword is discarded (4-keyword construction
equals the 3-keyword one for all values), and the report carries the three
declared fields with `total_time_taken` holding the measured duration. -/
theorem research_extra_kwarg_discarded (urls : List String)
    (cfg : AgentConfig) (fo ao : String → ℚ) (d : ℚ)
    (rs : List ArticleAnalysisResult) (n : Int) (q q' : ℚ) :
    NewsAgentReport.validate
      [("results", PyVal.vList rs),
       ("total_articles_processed", PyVal.vInt n),
       ("total_time_taken", PyVal.vNum q),
       ("total_duration", PyVal.vNum q')] =
      NewsAgentReport.validate
        [("results", PyVal.vList rs),
         ("total_articles_processed", PyVal.vInt n),
         ("total_time_taken", PyVal.vNum q)] ∧
    (NewsArticleAgent.research urls cfg fo ao d).total_time_taken = d ∧
    (NewsArticleAgent.research urls cfg fo ao d).total_articles_processed =
      (urls.length : Int) ∧
    (NewsArticleAgent.research urls cfg fo ao d).results.length =
      urls.length := by
  refine ⟨rfl, ?_, ?_, ?_⟩
  · rw [research_eq]
  · rw [research_eq]
  · rw [research_eq]
    simp

/-- Shape of a successful `researchE` run: when every fetch and every
processing call succeeds, the call returns the report built from all results
in order. -/
theorem researchE_map_ok (urls : List String)
    (f : String → RawArticleData)
    (g : RawArticleData → ArticleAnalysisResult) (d : ℚ) :
    NewsArticleAgent.researchE urls (fun url => Except.ok (f url))
      (fun raw => Except.ok (g raw)) d =
      Except.ok (NewsAgentReport.validate
        [("results", PyVal.vList ((urls.map f).map g)),
         ("total_articles_processed", PyVal.vInt (urls.length : Int)),
         ("total_time_taken", PyVal.vNum d),
         ("total_duration", PyVal.vNum d)]) := by
  unfold NewsArticleAgent.researchE
  simp only [gatherE_map_ok]

/-- C2 counterexample: at a concrete input whose first fetch raises, the
`research` call fails with the collaborator's exception itself, which is not
the `FetchError`-wrapped form the claim asserts. -/
theorem researchE_no_fetchError_wrapper_cex :
    NewsArticleAgent.researchE ["http://a", "http://b"]
      (fun url => if url = "http://a"
        then Except.error (PyErr.exception "boom")
        else Except.ok (async_mock_fetch_article_content url (1/2) 0))
      (fun raw => Except.ok
        (SummarizeCategorizeStrategy.process_article {} raw 0)) 1
      = Except.error (PyErr.exception "boom") ∧
    (Except.error (PyErr.exception "boom") : Except PyErr NewsAgentReport) ≠
      Except.error (PyErr.fetchError (PyErr.exception "boom")) := by
  exact ⟨rfl, by simp⟩

/-- C2 (amended): if any fetch raises, the whole `research` call fails with
the first failing fetch's exception propagated unwrapped (the code defines no
`FetchError` wrapper), and no partial report is returned; likewise a
processing failure propagates the first failing processing call's exception
unwrapped; the coordinator neither catches nor retries, and already-completed
sibling results of the failing phase are discarded. -/
theorem researchE_first_failure_propagates (urls : List String)
    (fetch : String → Except PyErr RawArticleData)
    (process : RawArticleData → Except PyErr ArticleAnalysisResult)
    (d : ℚ) (e : PyErr) (i : Nat) :
    ((urls.map fetch)[i]? = some (Except.error e) →
      (∀ j, j < i → ∃ r, (urls.map fetch)[j]? = some (Except.ok r)) →
      NewsArticleAgent.researchE urls fetch process d = Except.error e) ∧
    (∀ raws : List RawArticleData,
      gatherE (urls.map fetch) = Except.ok raws →
      (raws.map process)[i]? = some (Except.error e) →
      (∀ j, j < i → ∃ r, (raws.map process)[j]? = some (Except.ok r)) →
      NewsArticleAgent.researchE urls fetch process d = Except.error e) := by
  constructor
  · intro h1 h2
    have hg := gatherE_error_at _ i e h1 h2
    simp only [NewsArticleAgent.researchE, hg]
  · intro raws hr h1 h2
    have hg := gatherE_error_at _ i e h1 h2
    simp only [NewsArticleAgent.researchE, hr, hg]

theorem researchE_first_failure_propagates_witness :
    NewsArticleAgent.researchE ["http://a", "http://b"]
      (fun url => if url = "http://b"
        then Except.error (PyErr.exception "late boom")
        else Except.ok (async_mock_fetch_article_content url (1/2) 0))
      (fun raw => Except.ok
        (SummarizeCategorizeStrategy.process_article {} raw 0)) 1
      = Except.error (PyErr.exception "late boom") := by
  refine (researchE_first_failure_propagates ["http://a", "http://b"] _ _ 1
    (PyErr.exception "late boom") 1).1 rfl ?_
  intro j hj
  interval_cases j
  exact ⟨async_mock_fetch_article_content "http://a" (1/2) 0, rfl⟩

/-- C5: closing the pool never errors from any state (in particular when no
work was ever submitted) and is idempotent, and any submission attempt after
close (every submission goes through the `executor` property) fails with the
runtime error raised for a closed/unopened pool — the spec's
`PoolClosedError`. -/
theorem pool_close_semantics (m : ExecutorManager) (k : Int) :
    (∃ m' : ExecutorManager, m.aexit = Except.ok m' ∧
      m'.executorProp = Except.error (PyErr.runtimeError
        "Executor not initialized. Use ExecutorManager as an async context manager.") ∧
      m'.aexit = Except.ok m') ∧
    (ExecutorManager.init k).aexit = Except.ok (ExecutorManager.init k) := by
  constructor
  · cases hm : m.executor_field with
    | none =>
      exact ⟨m, by simp [ExecutorManager.aexit, hm],
        by simp [ExecutorManager.executorProp, hm],
        by simp [ExecutorManager.aexit, hm]⟩
    | some e =>
      refine ⟨{ m with executor_field := none }, ?_, rfl, rfl⟩
      simp [ExecutorManager.aexit, hm]
  · rfl

/-- C6: entering the pool scope with a non-positive worker count fails with
the underlying allocator's error — the spec's `PoolInitError` — and with any
positive count it succeeds, storing a pool of exactly that many workers. -/
theorem pool_open_semantics (m : ExecutorManager) :
    (m.max_workers_field ≤ 0 →
      m.aenter = Except.error
        (PyErr.valueError "max_workers must be greater than 0")) ∧
    (0 < m.max_workers_field →
      m.aenter = Except.ok
        { m with
          executor_field := some (PoolHandle.mk m.max_workers_field) }) := by
  constructor
  · intro h
    simp [ExecutorManager.aenter, processPoolExecutorInit, h]
  · intro h
    simp [ExecutorManager.aenter, processPoolExecutorInit, not_le.mpr h]

theorem pool_open_semantics_witness :
    (ExecutorManager.init 0).max_workers_field ≤ 0 ∧
    (ExecutorManager.init 0).aenter = Except.error
      (PyErr.valueError "max_workers must be greater than 0") ∧
    0 < (ExecutorManager.init 3).max_workers_field ∧
    (ExecutorManager.init 3).aenter = Except.ok
      { max_workers_field := 3, executor_field := some (PoolHandle.mk 3) } :=
  ⟨by decide, (pool_open_semantics (ExecutorManager.init 0)).1 (by decide),
   by decide, (pool_open_semantics (ExecutorManager.init 3)).2 (by decide)⟩

/-- C7: the `api_timeout` configuration value does not influence `research`:
two configurations that agree on every other field produce identical reports
(same urls, summaries, categories, entities and timing fields) on every
input, and the call never fails or is cancelled — with the always-succeeding
collaborators the fallible pipeline returns exactly the report. -/
theorem api_timeout_noninterference (urls : List String)
    (c1 c2 : AgentConfig) (fo ao : String → ℚ) (d : ℚ)
    (hW : c1.max_cpu_workers = c2.max_cpu_workers)
    (hF : c1.mock_fetch_delay = c2.mock_fetch_delay)
    (hP : c1.mock_analysis_time = c2.mock_analysis_time) :
    NewsArticleAgent.research urls c1 fo ao d =
      NewsArticleAgent.research urls c2 fo ao d ∧
    NewsArticleAgent.researchE urls
      (fun url => Except.ok (async_mock_fetch_article_content url
        c1.mock_fetch_delay (fo url)))
      (fun raw => Except.ok (SummarizeCategorizeStrategy.process_article c1 raw
        (ao raw.url)))
      d = Except.ok (NewsArticleAgent.research urls c1 fo ao d) := by
  constructor
  · rw [research_eq, research_eq]
    simp [SummarizeCategorizeStrategy.process_article, hF, hP]
  · rw [researchE_map_ok, validate_research_kwargs, research_eq]
    simp [List.map_map]
    exact fun a _ => rfl

theorem api_timeout_noninterference_witness :
    NewsArticleAgent.research ["http://a", "http://b"]
        { cfgEx with api_timeout := 5 } (fun _ => 0) (fun _ => 0) 1 =
      NewsArticleAgent.research ["http://a", "http://b"]
        { cfgEx with api_timeout := 999 } (fun _ => 0) (fun _ => 0) 1 :=
  (api_timeout_noninterference ["http://a", "http://b"]
    { cfgEx with api_timeout := 5 } { cfgEx with api_timeout := 999 }
    (fun _ => 0) (fun _ => 0) 1 rfl rfl rfl).1

/-- C8: under the idealized timing semantics of the code's two-phase fan-out
(all fetches concurrent, processing bounded only by the `w`-worker pool), the
report's measured total duration for a non-empty input of `n` urls is at
least `F + ⌈n / w⌉ * P`. -/
theorem research_timing_lower_bound (urls : List String) (cfg : AgentConfig)
    (w : Nat) (fo ao : String → ℚ)
    (hW : cfg.max_cpu_workers = (w : Int)) (hw : 0 < w) (hne : urls ≠ []) :
    cfg.mock_fetch_delay +
        (ceilDiv urls.length w : ℚ) * cfg.mock_analysis_time ≤
      (NewsArticleAgent.research urls cfg fo ao
        (researchTotalDurationIdeal urls.length w cfg.mock_fetch_delay
          cfg.mock_analysis_time)).total_time_taken := by
  rw [research_eq]
  have hn0 : 0 < urls.length := List.length_pos.mpr hne
  have hmem : jobFinishTime cfg.mock_fetch_delay cfg.mock_analysis_time w
      (urls.length - 1) ∈
      (List.range urls.length).map
        (jobFinishTime cfg.mock_fetch_delay cfg.mock_analysis_time w) :=
    List.mem_map.mpr ⟨urls.length - 1, List.mem_range.mpr (by omega), rfl⟩
  have hle := le_foldr_max cfg.mock_fetch_delay hmem
  refine le_trans (le_of_eq ?_) hle
  unfold jobFinishTime
  rw [ceilDiv_eq urls.length w hn0 hw]
  push_cast
  ring

theorem research_timing_lower_bound_witness :
    cfgEx.mock_fetch_delay +
        (ceilDiv (["a", "b", "c", "d"] : List String).length 2 : ℚ) *
          cfgEx.mock_analysis_time ≤
      (NewsArticleAgent.research ["a", "b", "c", "d"] cfgEx (fun _ => 0)
        (fun _ => 0)
        (researchTotalDurationIdeal (["a", "b", "c", "d"] : List String).length
          2 cfgEx.mock_fetch_delay cfgEx.mock_analysis_time)).total_time_taken :=
  research_timing_lower_bound ["a", "b", "c", "d"] cfgEx 2 (fun _ => 0)
    (fun _ => 0) (by decide) (by decide) (by simp)
